import Mathlib

/-!
Verification of the ball-drop simulation in `src/main.ts`.

The program animates a gravity-driven falling ball on an HTML canvas.  Its
core consists of the class `Ball` (physical state plus the integration step
`update`, the reinitialisation `reset`, and a state-read-only `render`) and
the class `AnimationController` (a `requestAnimationFrame` loop with a
fixed-timestep / variable-timestep ("delta time") policy).

Numbers are embedded as exact rationals `ℚ`; JavaScript numeric literals
(`20`, `9.8`, `50`, `400`, `1000`, `60`) are all exactly representable, and
the arithmetic of the program is modelled by exact field arithmetic.
Wall-clock reads (`performance.now()`) are passed in as explicit arguments,
and the two timestamp fields `startTime`/`stopTime`, which only feed the
on-canvas elapsed-time text of `render`, are not part of the physical state
modelled here.
-/

/-- State of the `Ball` class: the canvas dimensions it was constructed
with (the source keeps a reference to the canvas and reads `canvas.width`
and `canvas.height`), the coordinates `x`, `y`, the downward `velocity`,
and the terminal `stopped` flag. -/
structure Ball where
  width : ℚ
  height : ℚ
  x : ℚ
  y : ℚ
  velocity : ℚ
  stopped : Bool
deriving DecidableEq, Repr

/-- `Ball.RADIUS = 20`, the ball size. -/
def Ball.RADIUS : ℚ := 20

/-- `Ball.GRAVITY = 9.8 * 50`, the scaled gravitational acceleration. -/
def Ball.GRAVITY : ℚ := 9.8 * 50

/-- `Ball.reset`: reinitialise to the top position
(`x = canvas.width / 2`, `y = RADIUS`, `velocity = 0`, `stopped = false`). -/
def Ball.reset (b : Ball) : Ball :=
  { b with x := b.width / 2, y := Ball.RADIUS, velocity := 0, stopped := false }

/-- `Ball.update(deltaTime)`: if stopped, do nothing; otherwise apply
gravity to the velocity, advance the position with the updated velocity,
and clamp to the ground (`y = canvas.height - RADIUS`, `velocity = 0`,
`stopped = true`) when `y + RADIUS >= canvas.height`. -/
def Ball.update (b : Ball) (deltaTime : ℚ) : Ball :=
  if b.stopped then b
  else
    let velocity := b.velocity + Ball.GRAVITY * deltaTime
    let y := b.y + velocity * deltaTime
    if y + Ball.RADIUS ≥ b.height then
      { b with y := b.height - Ball.RADIUS, velocity := 0, stopped := true }
    else
      { b with y := y, velocity := velocity, stopped := false }

/-- The integration phase of `Ball.update`, exactly as the two assignment
statements of the source execute in order: first
`velocity += GRAVITY * deltaTime`, then `y += velocity * deltaTime` with
the already-updated velocity. -/
def Ball.integrate (b : Ball) (deltaTime : ℚ) : Ball :=
  { b with
    velocity := b.velocity + Ball.GRAVITY * deltaTime,
    y := b.y + (b.velocity + Ball.GRAVITY * deltaTime) * deltaTime }

/-- The ground-contact phase of `Ball.update`: clamp and stop when
`y + RADIUS >= canvas.height`, otherwise leave the state as-is. -/
def Ball.groundCheck (b : Ball) : Ball :=
  if b.y + Ball.RADIUS ≥ b.height then
    { b with y := b.height - Ball.RADIUS, velocity := 0, stopped := true }
  else b

theorem Ball.gravity_eq : Ball.GRAVITY = 490 := by norm_num [Ball.GRAVITY]

/-- A stopped ball is left untouched by `update`. -/
theorem Ball.update_stopped (b : Ball) (dt : ℚ) (h : b.stopped = true) :
    b.update dt = b := by
  simp [Ball.update, h]

/-- `update` on a non-stopped ball, explicit form of the non-clamping
branch. -/
theorem Ball.update_no_contact (b : Ball) (dt : ℚ) (h : b.stopped = false)
    (hlt : b.y + (b.velocity + Ball.GRAVITY * dt) * dt + Ball.RADIUS < b.height) :
    b.update dt =
      { b with
        y := b.y + (b.velocity + Ball.GRAVITY * dt) * dt,
        velocity := b.velocity + Ball.GRAVITY * dt,
        stopped := false } := by
  rw [Ball.update, if_neg (by simp [h])]
  rw [if_neg (by simp only [ge_iff_le, not_le]; linarith)]

/-- `update` on a non-stopped ball, explicit form of the clamping branch. -/
theorem Ball.update_contact (b : Ball) (dt : ℚ) (h : b.stopped = false)
    (hge : b.height ≤ b.y + (b.velocity + Ball.GRAVITY * dt) * dt + Ball.RADIUS) :
    b.update dt =
      { b with y := b.height - Ball.RADIUS, velocity := 0, stopped := true } := by
  rw [Ball.update, if_neg (by simp [h])]
  rw [if_pos (by simp only [ge_iff_le]; linarith)]

/-- If `update` of a non-stopped ball did not stop it, it took the
non-clamping branch. -/
theorem Ball.update_of_not_stopped (b : Ball) (dt : ℚ) (h : b.stopped = false)
    (h' : (b.update dt).stopped = false) :
    b.update dt =
      { b with
        y := b.y + (b.velocity + Ball.GRAVITY * dt) * dt,
        velocity := b.velocity + Ball.GRAVITY * dt,
        stopped := false } := by
  by_cases hc : b.height ≤ b.y + (b.velocity + Ball.GRAVITY * dt) * dt + Ball.RADIUS
  · rw [Ball.update_contact b dt h hc] at h'
    simp at h'
  · exact Ball.update_no_contact b dt h (by linarith [not_le.mp hc])

/-- `update` never unstops a ball. -/
theorem Ball.stopped_of_update (b : Ball) (dt : ℚ) (h : b.stopped = true) :
    (b.update dt).stopped = true := by
  rw [Ball.update_stopped b dt h]; exact h

/-- A stopped state whose position is past the ground: `update` leaves it
in place, so the ground inequality can fail on it. -/
def strayBall : Ball :=
  { width := 300, height := 400, x := 150, y := 1000, velocity := 5, stopped := true }

/-- C1 (counterexample): quantified over all body states, the claim is
false — on the (unreachable) stopped state `strayBall` with `y = 1000`,
`update 0` changes nothing and `y + RADIUS ≤ height` fails afterwards. -/
theorem claim1_counterexample :
    ¬ ((strayBall.update 0).y + Ball.RADIUS ≤ strayBall.height) := by
  rw [Ball.update_stopped strayBall 0 (by rfl)]
  norm_num [strayBall, Ball.RADIUS]

/-- C1 (amended): for every `dt ≥ 0`, (i) updating a non-stopped ball
always re-establishes `y + RADIUS ≤ height`; (ii) updating a stopped ball
changes nothing at all, so `position`, `velocity` and `stopped` are frozen
until `reset`; (iii) hence the ground inequality is preserved from any
state that already satisfies it — in particular it holds after every
`update` call on the states the program actually reaches. -/
theorem claim1_ground_clamp (b : Ball) (dt : ℚ) (hdt : 0 ≤ dt) :
    (b.stopped = false → (b.update dt).y + Ball.RADIUS ≤ b.height) ∧
    (b.stopped = true → b.update dt = b) ∧
    (b.y + Ball.RADIUS ≤ b.height → (b.update dt).y + Ball.RADIUS ≤ b.height) := by
  have hfree : b.stopped = true → b.update dt = b := Ball.update_stopped b dt
  have hmain : b.stopped = false → (b.update dt).y + Ball.RADIUS ≤ b.height := by
    intro h
    by_cases hc : b.height ≤ b.y + (b.velocity + Ball.GRAVITY * dt) * dt + Ball.RADIUS
    · rw [Ball.update_contact b dt h hc]
      simp
    · rw [Ball.update_no_contact b dt h (by linarith [not_le.mp hc])]
      have := not_le.mp hc
      simp only []
      linarith
  refine ⟨hmain, hfree, ?_⟩
  intro hinv
  cases hs : b.stopped with
  | false => exact hmain hs
  | true => rw [hfree hs]; exact hinv

/-- A concrete non-stopped state close to the ground, used as witness
input. -/
def nearGroundBall : Ball := ⟨300, 400, 150, 379, 300, false⟩

/-- A concrete freshly falling state, used as witness input. -/
def topBall : Ball := ⟨300, 400, 150, 20, 0, false⟩

/-- C1 witness: the amended theorem applied to a concrete non-stopped state
close to the ground. -/
theorem claim1_witness :
    (0 : ℚ) ≤ 1 / 60 ∧ (nearGroundBall.update (1 / 60)).y + Ball.RADIUS ≤ nearGroundBall.height := by
  refine ⟨by norm_num, ?_⟩
  exact (claim1_ground_clamp nearGroundBall (1 / 60) (by norm_num)).1 (by rfl)

/-- C2: on a non-stopped ball, `update` is exactly the integration step
(velocity first, then position advanced with the updated velocity)
followed by the ground-contact check, and the integration step computes
`velocity + GRAVITY * dt` and `y + (velocity + GRAVITY * dt) * dt`. -/
theorem claim2_integration_order (b : Ball) (dt : ℚ) (h : b.stopped = false)
    (hdt : 0 ≤ dt) :
    b.update dt = (b.integrate dt).groundCheck ∧
    (b.integrate dt).velocity = b.velocity + Ball.GRAVITY * dt ∧
    (b.integrate dt).y = b.y + (b.velocity + Ball.GRAVITY * dt) * dt := by
  refine ⟨?_, rfl, rfl⟩
  simp only [Ball.update, Ball.integrate, Ball.groundCheck, h, Bool.false_eq_true,
    if_false]

/-- C2 witness: the decomposition applied to a concrete falling ball. -/
theorem claim2_witness :
    topBall.stopped = false ∧
      topBall.update (1 / 60) = (topBall.integrate (1 / 60)).groundCheck :=
  ⟨rfl, (claim2_integration_order topBall (1 / 60) (by rfl) (by norm_num)).1⟩

/-- C4: on a non-stopped ball, whenever the integrated position reaches
the ground (`position + radius ≥ surfaceHeight` after the integration
step), `update` clamps to `position = surfaceHeight - radius`, zeroes the
velocity and sets `stopped`. -/
theorem claim4_ground_contact (b : Ball) (dt : ℚ) (h : b.stopped = false)
    (hdt : 0 ≤ dt)
    (hge : b.y + (b.velocity + Ball.GRAVITY * dt) * dt + Ball.RADIUS ≥ b.height) :
    (b.update dt).y = b.height - Ball.RADIUS ∧
    (b.update dt).velocity = 0 ∧
    (b.update dt).stopped = true := by
  rw [Ball.update_contact b dt h hge.le]
  exact ⟨rfl, rfl, rfl⟩

/-- A concrete ball one integration step above the ground, used as witness
input. -/
def fastBall : Ball := ⟨300, 400, 150, 379, 600, false⟩

/-- C4 witness: the clamp theorem applied to `fastBall`. -/
theorem claim4_witness :
    (fastBall.update (1 / 60)).y = fastBall.height - Ball.RADIUS ∧
    (fastBall.update (1 / 60)).velocity = 0 ∧
    (fastBall.update (1 / 60)).stopped = true :=
  claim4_ground_contact fastBall (1 / 60) (by rfl) (by norm_num)
    (by norm_num [Ball.GRAVITY, Ball.RADIUS, fastBall])

/-- C8: `reset` is idempotent and always produces the canonical state
`position = RADIUS`, `velocity = 0`, `stopped = false`. -/
theorem claim8_reset_idempotent (b : Ball) :
    b.reset.reset = b.reset ∧
    b.reset.y = Ball.RADIUS ∧ b.reset.velocity = 0 ∧ b.reset.stopped = false := by
  refine ⟨?_, rfl, rfl, rfl⟩
  simp [Ball.reset]

/-- Apply a finite sequence of `update` calls in order. -/
def Ball.applySeq (b : Ball) (dts : List ℚ) : Ball :=
  dts.foldl Ball.update b

theorem Ball.applySeq_nil (b : Ball) : b.applySeq [] = b := rfl

theorem Ball.applySeq_cons (b : Ball) (d : ℚ) (l : List ℚ) :
    b.applySeq (d :: l) = (b.update d).applySeq l := rfl

theorem Ball.applySeq_append (b : Ball) (l₁ l₂ : List ℚ) :
    b.applySeq (l₁ ++ l₂) = (b.applySeq l₁).applySeq l₂ := by
  simp [Ball.applySeq, List.foldl_append]

/-- A stopped ball is left untouched by any sequence of updates. -/
theorem Ball.applySeq_stopped (b : Ball) (l : List ℚ) (h : b.stopped = true) :
    b.applySeq l = b := by
  induction l with
  | nil => rfl
  | cons d l ih => rw [Ball.applySeq_cons, Ball.update_stopped b d h, ih]

/-- If a run of updates ends non-stopped, it started non-stopped. -/
theorem Ball.not_stopped_of_applySeq (b : Ball) (l : List ℚ)
    (h : (b.applySeq l).stopped = false) : b.stopped = false := by
  cases hs : b.stopped with
  | false => rfl
  | true => rw [Ball.applySeq_stopped b l hs] at h; rw [hs] at h; exact absurd h (by simp)

/-- Monotonicity along a run of nonnegative steps that never reaches the
ground: velocity and position are non-decreasing, and the velocity stays
nonnegative. -/
theorem Ball.applySeq_mono (l : List ℚ) : ∀ (b : Ball),
    (∀ d ∈ l, 0 ≤ d) → 0 ≤ b.velocity → (b.applySeq l).stopped = false →
    b.velocity ≤ (b.applySeq l).velocity ∧ b.y ≤ (b.applySeq l).y ∧
      0 ≤ (b.applySeq l).velocity := by
  induction l with
  | nil => intro b _ hv _; exact ⟨le_refl _, le_refl _, hv⟩
  | cons d l ih =>
    intro b hd hv hstop
    rw [Ball.applySeq_cons] at hstop ⊢
    have hb : b.stopped = false := by
      have h1 : (b.update d).stopped = false :=
        Ball.not_stopped_of_applySeq _ _ hstop
      cases hs : b.stopped with
      | false => rfl
      | true => rw [Ball.update_stopped b d hs] at h1; rw [hs] at h1; exact absurd h1 (by simp)
    have h1 : (b.update d).stopped = false := Ball.not_stopped_of_applySeq _ _ hstop
    have hform := Ball.update_of_not_stopped b d hb h1
    have hd0 : 0 ≤ d := hd d (List.mem_cons_self d l)
    have hv1 : (b.update d).velocity = b.velocity + Ball.GRAVITY * d := by rw [hform]
    have hy1 : (b.update d).y = b.y + (b.velocity + Ball.GRAVITY * d) * d := by rw [hform]
    have hvge : b.velocity ≤ (b.update d).velocity := by
      rw [hv1, Ball.gravity_eq]; nlinarith
    have hvnn : 0 ≤ (b.update d).velocity := le_trans hv hvge
    have hyge : b.y ≤ (b.update d).y := by
      rw [hy1]
      have : 0 ≤ (b.velocity + Ball.GRAVITY * d) * d := by
        rw [Ball.gravity_eq]; nlinarith
      linarith
    have hrest := ih (b.update d) (fun x hx => hd x (List.mem_cons_of_mem d hx)) hvnn hstop
    exact ⟨le_trans hvge hrest.1, le_trans hyge hrest.2.1, hrest.2.2⟩

/-- C7: along any sequence of positive timesteps applied to a freshly
reset ball, as long as the ball has not yet stopped, both velocity and
position are non-decreasing (comparing the state after `i` steps with the
state after `j ≥ i` steps). -/
theorem claim7_monotonic_fall (b₀ : Ball) (dts : List ℚ)
    (hpos : ∀ d ∈ dts, 0 < d) (i j : ℕ) (hij : i ≤ j)
    (hnot : (b₀.reset.applySeq (dts.take j)).stopped = false) :
    (b₀.reset.applySeq (dts.take i)).velocity ≤
        (b₀.reset.applySeq (dts.take j)).velocity ∧
      (b₀.reset.applySeq (dts.take i)).y ≤ (b₀.reset.applySeq (dts.take j)).y := by
  have hsplit : dts.take j = dts.take i ++ (dts.drop i).take (j - i) := by
    rw [← List.take_add]
    congr 1
    omega
  rw [hsplit, Ball.applySeq_append] at hnot ⊢
  have hmid : ∀ d ∈ (dts.drop i).take (j - i), 0 ≤ d := fun d hd =>
    le_of_lt (hpos d (List.drop_subset i dts (List.take_subset _ _ hd)))
  have hpre : ∀ d ∈ dts.take i, 0 ≤ d := fun d hd =>
    le_of_lt (hpos d (List.take_subset _ _ hd))
  have hstopi : (b₀.reset.applySeq (dts.take i)).stopped = false :=
    Ball.not_stopped_of_applySeq _ _ hnot
  have hvi : 0 ≤ (b₀.reset.applySeq (dts.take i)).velocity := by
    have h0 : 0 ≤ b₀.reset.velocity := by rw [Ball.reset]
    exact (Ball.applySeq_mono (dts.take i) b₀.reset hpre h0 hstopi).2.2
  have h := Ball.applySeq_mono ((dts.drop i).take (j - i))
    (b₀.reset.applySeq (dts.take i)) hmid hvi hnot
  exact ⟨h.1, h.2.1⟩

/-- C7 witness: two steps of `1/60` on a freshly reset ball. -/
theorem claim7_witness :
    (∀ d ∈ [(1 : ℚ) / 60, 1 / 60], 0 < d) ∧
    (topBall.reset.applySeq ([(1 : ℚ) / 60, 1 / 60].take 2)).stopped = false ∧
    (topBall.reset.applySeq ([(1 : ℚ) / 60, 1 / 60].take 1)).y ≤
      (topBall.reset.applySeq ([(1 : ℚ) / 60, 1 / 60].take 2)).y := by
  have hpos : ∀ d ∈ [(1 : ℚ) / 60, 1 / 60], 0 < d := by
    intro d hd
    simp only [List.mem_cons, List.not_mem_nil, or_false] at hd
    rcases hd with h | h <;> rw [h] <;> norm_num
  have h1 : topBall.reset.update (1 / 60) = (⟨300, 400, 150, 7249 / 360, 49 / 6, false⟩ : Ball) := by
    rw [Ball.update_no_contact _ _ (by rfl)
      (by norm_num [topBall, Ball.reset, Ball.GRAVITY, Ball.RADIUS])]
    norm_num [topBall, Ball.reset, Ball.GRAVITY, Ball.RADIUS]
  have h2 : ((⟨300, 400, 150, 7249 / 360, 49 / 6, false⟩ : Ball)).update (1 / 60) =
      (⟨300, 400, 150, 7347 / 360, 49 / 3, false⟩ : Ball) := by
    rw [Ball.update_no_contact _ _ (by rfl) (by norm_num [Ball.GRAVITY, Ball.RADIUS])]
    norm_num [Ball.GRAVITY]
  have hstop : (topBall.reset.applySeq ([(1 : ℚ) / 60, 1 / 60].take 2)).stopped = false := by
    show ((topBall.reset.update (1 / 60)).update (1 / 60)).stopped = false
    rw [h1, h2]
  exact ⟨hpos, hstop,
    (claim7_monotonic_fall topBall [(1 : ℚ) / 60, 1 / 60] hpos 1 2 (by norm_num) hstop).2⟩

/-- The C6 scenario's initial state: a `300 × 400` canvas, `position = 20`
(equal to the radius, as after `reset`), `velocity = 0`. -/
def scenarioBall : Ball := ⟨300, 400, 150, 20, 0, false⟩

/-- Iterate `update` with the fixed timestep `dt = 1/60`. -/
def scenarioRun : ℕ → Ball
  | 0 => scenarioBall
  | n + 1 => (scenarioRun n).update (1 / 60)

/-- Closed form of the scenario trajectory while falling: after `k` steps,
`y = 20 + 49 k (k+1) / 720` and `velocity = 49 k / 6`. -/
def scenarioState (k : ℕ) : Ball :=
  ⟨300, 400, 150, 20 + 49 * (k : ℚ) * ((k : ℚ) + 1) / 720, 49 * (k : ℚ) / 6, false⟩

theorem scenarioRun_eq_scenarioState (k : ℕ) (hk : k ≤ 72) :
    scenarioRun k = scenarioState k := by
  induction k with
  | zero => simp [scenarioRun, scenarioBall, scenarioState]
  | succ k ih =>
    have hk' : k ≤ 72 := Nat.le_of_succ_le hk
    have hk71 : (k : ℚ) ≤ 71 := by
      have : k ≤ 71 := by omega
      exact_mod_cast this
    have hk0 : (0 : ℚ) ≤ (k : ℚ) := Nat.cast_nonneg k
    rw [show scenarioRun (k + 1) = (scenarioRun k).update (1 / 60) from rfl, ih hk']
    rw [Ball.update_no_contact (scenarioState k) (1 / 60) (by rfl) ?cond]
    case cond =>
      show 20 + 49 * (k : ℚ) * ((k : ℚ) + 1) / 720 +
          (49 * (k : ℚ) / 6 + Ball.GRAVITY * (1 / 60)) * (1 / 60) + Ball.RADIUS < 400
      rw [Ball.gravity_eq, Ball.RADIUS]
      nlinarith
    show ({ scenarioState k with
        y := (scenarioState k).y +
          ((scenarioState k).velocity + Ball.GRAVITY * (1 / 60)) * (1 / 60),
        velocity := (scenarioState k).velocity + Ball.GRAVITY * (1 / 60),
        stopped := false } : Ball) = scenarioState (k + 1)
    rw [Ball.gravity_eq]
    simp only [scenarioState, Ball.mk.injEq, Nat.cast_add, Nat.cast_one]
    exact ⟨trivial, trivial, trivial, by ring, by ring, trivial⟩

/-- After `72` steps the scenario ball is still falling, at
`y = 3777/10 = 377.7`. -/
theorem scenarioRun_72 : scenarioRun 72 = (⟨300, 400, 150, 3777 / 10, 588, false⟩ : Ball) := by
  rw [scenarioRun_eq_scenarioState 72 (le_refl 72)]
  norm_num [scenarioState]

/-- The `73`rd step clamps: the scenario ball stops exactly at
`y = 380 = surfaceHeight - radius`. -/
theorem scenarioRun_73 : scenarioRun 73 = (⟨300, 400, 150, 380, 0, true⟩ : Ball) := by
  rw [show scenarioRun 73 = (scenarioRun 72).update (1 / 60) from rfl, scenarioRun_72]
  rw [Ball.update_contact _ _ (by rfl) (by norm_num [Ball.GRAVITY, Ball.RADIUS])]
  norm_num [Ball.RADIUS]

/-- C6 (counterexample): the spec's parenthetical "approximately 70 ticks"
is wrong — after 69, 70 and even 71 update calls the ball is still
falling, so the first stopping tick (73) is not within 1 tick of 70. -/
theorem claim6_counterexample :
    (scenarioRun 69).stopped = false ∧ (scenarioRun 70).stopped = false ∧
    (scenarioRun 71).stopped = false := by
  refine ⟨?_, ?_, ?_⟩ <;>
    rw [scenarioRun_eq_scenarioState _ (by norm_num)] <;> rfl

/-- C6 (amended): with `gravity = 490`, `radius = 20`,
`surfaceHeight = 400`, `position = 20`, `velocity = 0` and fixed
`dt = 1/60`, the ball first stops at update call `73`, with
`position = 380` and `stopped = true`; `73` is within `1` tick of the
analytic stopping time of `y(t) = 20 + 245 t²` at `y = 380`, which is
`t = √(360/245) ≈ 1.212 s`, i.e. `≈ 72.7` ticks at 60 Hz (not the
`≈ 1.159 s` / `≈ 70` ticks stated in the spec). -/
theorem claim6_scenario (t : ℝ) (ht0 : 0 ≤ t) (ht : 20 + 245 * t ^ 2 = 380) :
    (scenarioRun 72).stopped = false ∧
    (scenarioRun 73).stopped = true ∧
    (scenarioRun 73).y = 380 ∧
    |(73 : ℝ) - 60 * t| ≤ 1 := by
  have h72 : t ^ 2 = 72 / 49 := by linarith
  have hlb : (6 : ℝ) / 5 ≤ t := by nlinarith
  have hub : t ≤ (37 : ℝ) / 30 := by nlinarith
  refine ⟨?_, ?_, ?_, ?_⟩
  · rw [scenarioRun_72]
  · rw [scenarioRun_73]
  · rw [scenarioRun_73]
  · rw [abs_le]
    constructor <;> linarith

/-- C6 witness: the analytic stopping time `t = 6√2/7` satisfies the
hypotheses of the scenario theorem. -/
theorem claim6_witness :
    (0 : ℝ) ≤ 6 * Real.sqrt 2 / 7 ∧
    20 + 245 * (6 * Real.sqrt 2 / 7) ^ 2 = 380 ∧
    |(73 : ℝ) - 60 * (6 * Real.sqrt 2 / 7)| ≤ 1 := by
  have h0 : (0 : ℝ) ≤ 6 * Real.sqrt 2 / 7 := by positivity
  have hsq : Real.sqrt 2 ^ 2 = 2 := Real.sq_sqrt (by norm_num)
  have ht : 20 + 245 * ((6 : ℝ) * Real.sqrt 2 / 7) ^ 2 = 380 := by
    field_simp
    nlinarith [hsq]
  exact ⟨h0, ht, (claim6_scenario (6 * Real.sqrt 2 / 7) h0 ht).2.2.2⟩

/-- State of the `AnimationController` class of `src/main.ts`, together
with an explicit model of its interaction with the browser scheduler.
`ball`, `lastTime`, `fps` and `frameInterval` are the fields of the class
(`animationFrameId` holds the id returned by the last registration).  The
remaining fields instrument the collaborators: `pending` counts the
currently pending `requestAnimationFrame` registrations made by this
controller, `nextFrameId` generates fresh registration ids, `cancelCalls`
counts invocations of the cancellation primitive
(`cancelAnimationFrame`), and `updateCalls` / `renderCalls` count the
invocations of `Ball.update` / `Ball.render` (render reads but never
writes simulation state, so only its invocation count is modelled).  The
checkbox state (`useVariableTimestep`) and the tick timestamp are read
fresh on every tick in the source, so they are arguments of the
operations, not state. -/
structure AnimationController where
  ball : Ball
  lastTime : ℚ
  fps : ℚ
  frameInterval : ℚ
  animationFrameId : Option ℕ
  pending : ℕ
  nextFrameId : ℕ
  cancelCalls : ℕ
  updateCalls : ℕ
  renderCalls : ℕ
deriving DecidableEq, Repr

/-- Model of `requestAnimationFrame(cb)`: one more pending registration,
whose fresh id is stored in `animationFrameId` (as the first line of
`animate` does). -/
def AnimationController.requestFrame (s : AnimationController) : AnimationController :=
  { s with
    pending := s.pending + 1,
    nextFrameId := s.nextFrameId + 1,
    animationFrameId := some s.nextFrameId }

/-- Model of `cancelAnimationFrame`: removes a pending registration and is
counted by `cancelCalls`.  The source stores ids in `animationFrameId` but
never passes one to this primitive. -/
def AnimationController.cancelFrame (s : AnimationController) : AnimationController :=
  { s with pending := s.pending - 1, cancelCalls := s.cancelCalls + 1 }

/-- The body of `AnimationController.animate(currentTime)`: re-register
with the scheduler, then either skip (fixed-step mode with
`elapsed < frameInterval`) or accept: choose `deltaTime`, set `lastTime`,
update and render the ball. -/
def AnimationController.animate (s : AnimationController) (useDelta : Bool)
    (currentTime : ℚ) : AnimationController :=
  let s1 := s.requestFrame
  let elapsed := currentTime - s1.lastTime
  if useDelta = false ∧ elapsed < s1.frameInterval then s1
  else
    let deltaTime := if useDelta then elapsed / 1000 else s1.frameInterval / 1000
    { s1 with
      lastTime := currentTime,
      ball := s1.ball.update deltaTime,
      updateCalls := s1.updateCalls + 1,
      renderCalls := s1.renderCalls + 1 }

/-- `AnimationController.start()`: anchor `lastTime = now` and run
`animate` synchronously with that timestamp. -/
def AnimationController.start (s : AnimationController) (useDelta : Bool)
    (now : ℚ) : AnimationController :=
  AnimationController.animate { s with lastTime := now } useDelta now

/-- `AnimationController.reset()`: reset the ball, then `start()`. -/
def AnimationController.reset (s : AnimationController) (useDelta : Bool)
    (now : ℚ) : AnimationController :=
  AnimationController.start { s with ball := s.ball.reset } useDelta now

/-- The scheduler delivering one pending registration: the registration is
consumed, then the registered callback `animate` runs. -/
def AnimationController.fireTick (s : AnimationController) (useDelta : Bool)
    (now : ℚ) : AnimationController :=
  AnimationController.animate { s with pending := s.pending - 1 } useDelta now

/-- The operations the program ever performs on a controller after
construction. -/
inductive ControllerOp where
  | startOp (useDelta : Bool) (now : ℚ)
  | resetOp (useDelta : Bool) (now : ℚ)
  | tickOp (useDelta : Bool) (now : ℚ)

/-- Apply one controller operation. -/
def AnimationController.applyOp (s : AnimationController) :
    ControllerOp → AnimationController
  | ControllerOp.startOp ud now => s.start ud now
  | ControllerOp.resetOp ud now => s.reset ud now
  | ControllerOp.tickOp ud now => s.fireTick ud now

/-- Iterated `reset`. -/
def resetN : AnimationController → Bool → ℚ → ℕ → AnimationController
  | s, _, _, 0 => s
  | s, ud, now, n + 1 => resetN (s.reset ud now) ud now n

/-- The scheduler delivering `n` callbacks at the same timestamp. -/
def fireN : AnimationController → Bool → ℚ → ℕ → AnimationController
  | s, _, _, 0 => s
  | s, ud, t, n + 1 => fireN (s.fireTick ud t) ud t n

/-- One display frame: the scheduler delivers every currently pending
callback with the frame's timestamp. -/
def fireFrame (s : AnimationController) (useDelta : Bool) (t : ℚ) :
    AnimationController :=
  fireN s useDelta t s.pending

theorem AnimationController.animate_skip (s : AnimationController)
    (useDelta : Bool) (t : ℚ)
    (h : useDelta = false ∧ t - s.lastTime < s.frameInterval) :
    s.animate useDelta t = s.requestFrame := by
  rw [AnimationController.animate]
  exact if_pos h

theorem AnimationController.animate_accept (s : AnimationController)
    (useDelta : Bool) (t : ℚ)
    (h : ¬(useDelta = false ∧ t - s.lastTime < s.frameInterval)) :
    s.animate useDelta t =
      { s.requestFrame with
        lastTime := t,
        ball := s.ball.update
          ((if useDelta then t - s.lastTime else s.frameInterval) / 1000),
        updateCalls := s.updateCalls + 1,
        renderCalls := s.renderCalls + 1 } := by
  rw [AnimationController.animate]
  simp only [AnimationController.requestFrame]
  rw [if_neg h]
  cases useDelta <;> rfl

/-- C3: a scheduler tick is skipped (ball untouched, no `update` call, no
`render` call, `lastTime` unchanged) exactly when variable-timestep mode
is off and `elapsed = now - lastTime` is below `frameInterval`; otherwise
the tick is accepted: `lastTime` becomes `now` and the ball is updated
with `dt = elapsed / 1000` (variable mode) or `dt = frameInterval / 1000`
(fixed mode), followed by one render. -/
theorem claim3_tick_policy (s : AnimationController) (useDelta : Bool) (t : ℚ) :
    ((useDelta = false ∧ t - s.lastTime < s.frameInterval) →
      ((s.animate useDelta t).ball = s.ball ∧
       (s.animate useDelta t).lastTime = s.lastTime ∧
       (s.animate useDelta t).updateCalls = s.updateCalls ∧
       (s.animate useDelta t).renderCalls = s.renderCalls)) ∧
    (¬(useDelta = false ∧ t - s.lastTime < s.frameInterval) →
      ((s.animate useDelta t).lastTime = t ∧
       (s.animate useDelta t).ball =
         s.ball.update
           ((if useDelta then t - s.lastTime else s.frameInterval) / 1000) ∧
       (s.animate useDelta t).updateCalls = s.updateCalls + 1 ∧
       (s.animate useDelta t).renderCalls = s.renderCalls + 1)) := by
  constructor
  · intro h
    rw [AnimationController.animate_skip s useDelta t h]
    exact ⟨rfl, rfl, rfl, rfl⟩
  · intro h
    rw [AnimationController.animate_accept s useDelta t h]
    exact ⟨rfl, rfl, rfl, rfl⟩

/-- A concrete controller state used as witness input: 60 fps, one pending
registration, tick 10 ms after the last accepted one. -/
def idleController : AnimationController :=
  ⟨topBall, 0, 60, 1000 / 60, some 0, 1, 1, 0, 1, 1⟩

/-- C3 witness: with variable timestep off and `elapsed = 10 < 1000/60`,
the concrete tick at `t = 10` is skipped. -/
theorem claim3_witness :
    ((false = false ∧ (10 : ℚ) - idleController.lastTime < idleController.frameInterval)) ∧
    (idleController.animate false 10).ball = idleController.ball ∧
    (idleController.animate false 10).lastTime = idleController.lastTime := by
  have hcond : (false = false ∧ (10 : ℚ) - idleController.lastTime < idleController.frameInterval) := by
    refine ⟨rfl, ?_⟩
    norm_num [idleController]
  have h := (claim3_tick_policy idleController false 10).1 hcond
  exact ⟨hcond, h.1, h.2.1⟩

/-- One delivered tick in explicit form, when the tick is accepted. -/
theorem AnimationController.fireTick_eq (s : AnimationController) (ud : Bool)
    (t : ℚ) (h : ¬(ud = false ∧ t - s.lastTime < s.frameInterval)) :
    s.fireTick ud t =
      { s with
        pending := s.pending - 1 + 1,
        nextFrameId := s.nextFrameId + 1,
        animationFrameId := some s.nextFrameId,
        lastTime := t,
        ball := s.ball.update ((if ud then t - s.lastTime else s.frameInterval) / 1000),
        updateCalls := s.updateCalls + 1,
        renderCalls := s.renderCalls + 1 } := by
  rw [AnimationController.fireTick,
    AnimationController.animate_accept _ ud t (by exact h)]
  rfl

/-- Ticks arriving exactly `frameInterval` after the last accepted one are
never skipped, in either mode. -/
theorem AnimationController.cadence_not_skip (s : AnimationController) (ud : Bool) :
    ¬(ud = false ∧ s.lastTime + s.frameInterval - s.lastTime < s.frameInterval) := by
  rintro ⟨-, hlt⟩
  rw [add_sub_cancel_left] at hlt
  exact lt_irrefl _ hlt

/-- At exact cadence, a variable-timestep tick and a fixed-timestep tick
produce the same state. -/
theorem AnimationController.cadence_step (s : AnimationController) :
    s.fireTick true (s.lastTime + s.frameInterval) =
      s.fireTick false (s.lastTime + s.frameInterval) := by
  rw [AnimationController.fireTick_eq s true _ (by simp),
    AnimationController.fireTick_eq s false _ (s.cadence_not_skip false)]
  simp [add_sub_cancel_left]

/-- Fields of an accepted tick. -/
theorem AnimationController.fireTick_fields (s : AnimationController) (ud : Bool)
    (t : ℚ) (h : ¬(ud = false ∧ t - s.lastTime < s.frameInterval)) :
    (s.fireTick ud t).lastTime = t ∧
    (s.fireTick ud t).frameInterval = s.frameInterval ∧
    (s.fireTick ud t).updateCalls = s.updateCalls + 1 := by
  rw [AnimationController.fireTick_eq s ud t h]
  exact ⟨rfl, rfl, rfl⟩

/-- Tick timestamps at exact `frameInterval` cadence after `t0`:
`t0 + d, t0 + 2d, …` (`n` of them). -/
def cadenceTimes : ℚ → ℚ → ℕ → List ℚ
  | _, _, 0 => []
  | t0, d, n + 1 => (t0 + d) :: cadenceTimes (t0 + d) d n

theorem cadenceTimes_succ (t0 d : ℚ) (n : ℕ) :
    cadenceTimes t0 d (n + 1) = (t0 + d) :: cadenceTimes (t0 + d) d n := rfl

/-- Deliver a list of scheduler ticks in order. -/
def runTicks (s : AnimationController) (useDelta : Bool) (ts : List ℚ) :
    AnimationController :=
  ts.foldl (fun s' t => s'.fireTick useDelta t) s

theorem runTicks_cons (s : AnimationController) (ud : Bool) (x : ℚ) (l : List ℚ) :
    runTicks s ud (x :: l) = runTicks (s.fireTick ud x) ud l := rfl

/-- C5: if the scheduler fires at exactly `frameInterval` cadence, the
variable-timestep run and the fixed-timestep run of any length coincide
state-for-state (in particular the ball trajectories are identical), and
every tick is accepted (`updateCalls` grows by one per tick), because the
chosen `dt` is `frameInterval / 1000` in both branches. -/
theorem claim5_timestep_equivalence (s : AnimationController) (n : ℕ) :
    runTicks s true (cadenceTimes s.lastTime s.frameInterval n) =
      runTicks s false (cadenceTimes s.lastTime s.frameInterval n) ∧
    (runTicks s false (cadenceTimes s.lastTime s.frameInterval n)).updateCalls =
      s.updateCalls + n := by
  induction n generalizing s with
  | zero => exact ⟨rfl, rfl⟩
  | succ n ih =>
    rw [cadenceTimes_succ, runTicks_cons, runTicks_cons,
      AnimationController.cadence_step s]
    have hf := AnimationController.fireTick_fields s false
      (s.lastTime + s.frameInterval) (s.cadence_not_skip false)
    have iht := ih (s.fireTick false (s.lastTime + s.frameInterval))
    rw [hf.1, hf.2.1] at iht
    refine ⟨iht.1, ?_⟩
    rw [iht.2, hf.2.2]
    omega

/-- `animate` never touches `cancelCalls` and always adds exactly one
pending registration. -/
theorem AnimationController.animate_sched (s : AnimationController)
    (ud : Bool) (t : ℚ) :
    (s.animate ud t).cancelCalls = s.cancelCalls ∧
    (s.animate ud t).pending = s.pending + 1 := by
  by_cases h : ud = false ∧ t - s.lastTime < s.frameInterval
  · rw [AnimationController.animate_skip s ud t h]
    exact ⟨rfl, rfl⟩
  · rw [AnimationController.animate_accept s ud t h]
    exact ⟨rfl, rfl⟩

theorem AnimationController.start_sched (s : AnimationController)
    (ud : Bool) (now : ℚ) :
    (s.start ud now).cancelCalls = s.cancelCalls ∧
    (s.start ud now).pending = s.pending + 1 :=
  AnimationController.animate_sched { s with lastTime := now } ud now

theorem AnimationController.reset_sched (s : AnimationController)
    (ud : Bool) (now : ℚ) :
    (s.reset ud now).cancelCalls = s.cancelCalls ∧
    (s.reset ud now).pending = s.pending + 1 :=
  AnimationController.start_sched { s with ball := s.ball.reset } ud now

theorem AnimationController.fireTick_sched (s : AnimationController)
    (ud : Bool) (t : ℚ) :
    (s.fireTick ud t).cancelCalls = s.cancelCalls ∧
    (s.fireTick ud t).pending = s.pending - 1 + 1 :=
  AnimationController.animate_sched { s with pending := s.pending - 1 } ud t

theorem resetN_pending (ud : Bool) (now : ℚ) (n : ℕ) :
    ∀ s : AnimationController, (resetN s ud now n).pending = s.pending + n := by
  induction n with
  | zero => intro s; rfl
  | succ n ih =>
    intro s
    rw [show resetN s ud now (n + 1) = resetN (s.reset ud now) ud now n from rfl, ih]
    rw [(s.reset_sched ud now).2]
    omega

/-- In variable-timestep mode a burst of `n` delivered callbacks (same
timestamp) performs `n` updates and `n` renders and leaves the number of
pending registrations unchanged, as long as at least one registration is
pending throughout. -/
theorem fireN_true_fields (t : ℚ) (n : ℕ) :
    ∀ s : AnimationController, 1 ≤ s.pending →
      (fireN s true t n).updateCalls = s.updateCalls + n ∧
      (fireN s true t n).renderCalls = s.renderCalls + n ∧
      (fireN s true t n).pending = s.pending ∧
      (fireN s true t n).cancelCalls = s.cancelCalls := by
  induction n with
  | zero => intro s _; exact ⟨rfl, rfl, rfl, rfl⟩
  | succ n ih =>
    intro s hs
    rw [show fireN s true t (n + 1) = fireN (s.fireTick true t) true t n from rfl]
    have hft := AnimationController.fireTick_eq s true t (by simp)
    have hpend : (s.fireTick true t).pending = s.pending := by
      rw [hft]; show s.pending - 1 + 1 = s.pending; omega
    have ihs := ih (s.fireTick true t) (by rw [hpend]; exact hs)
    refine ⟨?_, ?_, ?_, ?_⟩
    · rw [ihs.1, hft]; show s.updateCalls + 1 + n = s.updateCalls + (n + 1); omega
    · rw [ihs.2.1, hft]; show s.renderCalls + 1 + n = s.renderCalls + (n + 1); omega
    · rw [ihs.2.2.1, hpend]
    · rw [ihs.2.2.2, hft]

/-- C10: (a) no operation the program performs on a controller ever
invokes the cancellation primitive (`cancelCalls` is constant, i.e. the
stored `animationFrameId` is never passed to `cancelAnimationFrame`);
(b) `start` — and hence `reset`, which calls it — runs a tick
synchronously and leaves one more registration pending, so `n` resets
leave `pending + n` concurrent callback chains; (c) in variable-timestep
mode a display frame that delivers all `p` pending callbacks performs `p`
ball updates and `p` renders and re-registers all `p` chains. -/
theorem claim10_chain_leak :
    (∀ (s : AnimationController) (op : ControllerOp),
      (s.applyOp op).cancelCalls = s.cancelCalls) ∧
    (∀ (s : AnimationController) (ud : Bool) (now : ℚ),
      (s.start ud now).pending = s.pending + 1) ∧
    (∀ (s : AnimationController) (ud : Bool) (now : ℚ),
      (s.reset ud now).pending = s.pending + 1) ∧
    (∀ (s : AnimationController) (ud : Bool) (now : ℚ) (n : ℕ),
      (resetN s ud now n).pending = s.pending + n) ∧
    (∀ (s : AnimationController) (t : ℚ), 1 ≤ s.pending →
      (fireFrame s true t).updateCalls = s.updateCalls + s.pending ∧
      (fireFrame s true t).renderCalls = s.renderCalls + s.pending ∧
      (fireFrame s true t).pending = s.pending) := by
  refine ⟨?_, ?_, ?_, ?_, ?_⟩
  · intro s op
    cases op with
    | startOp ud now => exact (s.start_sched ud now).1
    | resetOp ud now => exact (s.reset_sched ud now).1
    | tickOp ud now => exact (s.fireTick_sched ud now).1
  · intro s ud now; exact (s.start_sched ud now).2
  · intro s ud now; exact (s.reset_sched ud now).2
  · intro s ud now n; exact resetN_pending ud now n s
  · intro s t hs
    have h := fireN_true_fields t s.pending s hs
    exact ⟨h.1, h.2.1, h.2.2.1⟩

/-- A concrete controller with two live callback chains, used as witness
input. -/
def busyController : AnimationController :=
  ⟨topBall, 0, 60, 1000 / 60, some 1, 2, 2, 0, 2, 2⟩

/-- C10 witness: on the two-chain state `busyController`, one display
frame in variable-timestep mode performs two ball updates. -/
theorem claim10_witness :
    1 ≤ busyController.pending ∧
    (fireFrame busyController true 50).updateCalls =
      busyController.updateCalls + busyController.pending :=
  ⟨by norm_num [busyController],
    (claim10_chain_leak.2.2.2.2 busyController 50 (by norm_num [busyController])).1⟩

/-- The state an `AnimationController` is constructed from: a freshly
reset ball, `fps = 60`, `frameInterval = 1000/60`, no registration yet and
all instrumentation counters zero (the constructor then calls
`start()`). -/
def blankController : AnimationController :=
  ⟨Ball.reset ⟨300, 400, 0, 0, 0, false⟩, 0, 60, 1000 / 60, none, 0, 0, 0, 0, 0⟩

/-- A controller right after construction (the constructor ends with
`this.start()`). -/
def constructedController (ud : Bool) (now : ℚ) : AnimationController :=
  blankController.start ud now

/-- C9 (evidence for the missing `stop()`): the source class has no stop
operation and never passes `animationFrameId` to `cancelAnimationFrame`.
Concretely: construction leaves one pending callback chain; a single
`reset()` leaves two chains pending with the cancellation primitive still
never invoked, and the next display frame then performs two ball updates
and two renders instead of one — no operation exists after which `update`
and `render` stop being invoked. -/
theorem claim9_missing_stop :
    (constructedController true 0).pending = 1 ∧
    ((constructedController true 0).reset true 100).pending = 2 ∧
    ((constructedController true 0).reset true 100).cancelCalls = 0 ∧
    (fireFrame ((constructedController true 0).reset true 100) true 116).updateCalls =
      ((constructedController true 0).reset true 100).updateCalls + 2 ∧
    (fireFrame ((constructedController true 0).reset true 100) true 116).renderCalls =
      ((constructedController true 0).reset true 100).renderCalls + 2 := by
  have h1 : (constructedController true 0).pending = 1 := by
    show (blankController.start true 0).pending = 1
    rw [(blankController.start_sched true 0).2]
    rfl
  have h2 : ((constructedController true 0).reset true 100).pending = 2 := by
    rw [((constructedController true 0).reset_sched true 100).2, h1]
  have h3 : ((constructedController true 0).reset true 100).cancelCalls = 0 := by
    rw [((constructedController true 0).reset_sched true 100).1]
    show (blankController.start true 0).cancelCalls = 0
    rw [(blankController.start_sched true 0).1]
    rfl
  have hfn := fireN_true_fields 116
    ((constructedController true 0).reset true 100).pending
    ((constructedController true 0).reset true 100) (by rw [h2]; norm_num)
  refine ⟨h1, h2, h3, ?_, ?_⟩
  · rw [show fireFrame ((constructedController true 0).reset true 100) true 116 =
      fireN ((constructedController true 0).reset true 100) true 116
        ((constructedController true 0).reset true 100).pending from rfl]
    rw [hfn.1, h2]
  · rw [show fireFrame ((constructedController true 0).reset true 100) true 116 =
      fireN ((constructedController true 0).reset true 100) true 116
        ((constructedController true 0).reset true 100).pending from rfl]
    rw [hfn.2.1, h2]
